import Mathlib

/-!
Verification development for the async-result container library.

The library provides two synchronous container families and their async
counterparts:

* the presence container `Option<T>` (classes `Some` / `None` in
  `src/option.ts`), embedded here as `Opt`;
* the outcome container `Result<T, E>` (classes `Ok` / `Err`), embedded as
  `Res`;
* `AsyncResult<T, E>`, a promise wrapping a `Result`, embedded as `AsyncRes`.

Modelling decisions:

* `None` carries an allocation identifier (`Nat`): the source allocates a
  `None` exactly once at module load (`const none_ = new None()`), and every
  operation that produces an empty presence container returns that same
  object.  The module-load instance is modelled as `Opt.None 0`; a
  hypothetical fresh allocation would carry a nonzero identifier.  Reference
  equality of `None` objects is thereby modelled as equality of identifiers.
* JavaScript exceptions are modelled with `Except ρ`: a user callback that
  may throw has codomain `Except ρ β`; a combinator that may propagate a
  throw has an `Except ρ` codomain as well.  Accessors that throw
  (`unwrap`, `unwrapErr`) return `Except String` carrying the exact message
  of the `Error` thrown by the source.
* Promises are modelled by `Prom ρ α`: `ticks` counts how many pending
  user-supplied promises were awaited before settlement, and `result` is
  `Except.ok` for fulfilment or `Except.error` for rejection.  An async
  method body that performs no `await` and returns a plain value yields
  `ticks = 0` — it settles immediately.  Awaiting a promise accumulates its
  ticks (`Prom.bind`), and returning a promise from an async body adopts it.
-/

/-- The presence container `Option<T>` of `src/option.ts`.  `Some` holds the
payload; `None` holds an allocation identifier modelling object identity
(the module-load singleton `none_` has identifier 0). -/
inductive Opt (α : Type) where
  | Some (value : α) : Opt α
  | None (id : Nat) : Opt α
deriving DecidableEq

/-- The module-load singleton `const none_ = new None()` of `src/option.ts`;
the only `None` allocation the source ever performs. -/
def Opt.none_ {α : Type} : Opt α := Opt.None 0

/-- The factory `some(value)` of `src/option.ts`: `return new Some(value)`. -/
def someFn {α : Type} (value : α) : Opt α := Opt.Some value

/-- The factory `none()` of `src/option.ts`: `return none_`. -/
def noneFn {α : Type} : Opt α := Opt.none_

/-- `Some.map`: `return some(transform(this.value))`; `None.map`:
`return none_`. -/
def Opt.map {α β : Type} (o : Opt α) (transform : α → β) : Opt β :=
  match o with
  | Opt.Some v => someFn (transform v)
  | Opt.None _ => Opt.none_

/-- `Some.andThen`: `return transform(this.value)`; `None.andThen`:
`return none_`. -/
def Opt.andThen {α β : Type} (o : Opt α) (transform : α → Opt β) : Opt β :=
  match o with
  | Opt.Some v => transform v
  | Opt.None _ => Opt.none_

/-- `Some.filter`: `return predicate(this.value) ? this : none_`;
`None.filter`: `return none_`. -/
def Opt.filter {α : Type} (o : Opt α) (predicate : α → Bool) : Opt α :=
  match o with
  | Opt.Some v => if predicate v then Opt.Some v else Opt.none_
  | Opt.None _ => Opt.none_

/-- `Some.insertWith`: `return this`; `None.insertWith`:
`return some(alter())`. -/
def Opt.insertWith {α : Type} (o : Opt α) (alter : Unit → α) : Opt α :=
  match o with
  | Opt.Some v => Opt.Some v
  | Opt.None _ => someFn (alter ())

/-- `Some.and`: `return replace`; `None.and`: `return none_`. -/
def Opt.and {α β : Type} (o : Opt α) (replace : Opt β) : Opt β :=
  match o with
  | Opt.Some _ => replace
  | Opt.None _ => Opt.none_

/-- `Some.or`: `return this`; `None.or`: `return alternate`. -/
def Opt.or {α : Type} (o : Opt α) (alternate : Opt α) : Opt α :=
  match o with
  | Opt.Some v => Opt.Some v
  | Opt.None _ => alternate

/-- `Some.xor`: `if (other.isNone) { return this; } return none_;`
`None.xor`: `return other`. -/
def Opt.xor {α : Type} (o : Opt α) (other : Opt α) : Opt α :=
  match o with
  | Opt.Some v =>
    match other with
    | Opt.None _ => Opt.Some v
    | Opt.Some _ => Opt.none_
  | Opt.None _ => other

/-- `Some.orElse`: `return this`; `None.orElse`: `return alter()`. -/
def Opt.orElse {α : Type} (o : Opt α) (alter : Unit → Opt α) : Opt α :=
  match o with
  | Opt.Some v => Opt.Some v
  | Opt.None _ => alter ()

/-- `Some.zip`: `return other.map((other) => [this.value, other])`;
`None.zip`: `return none_`. -/
def Opt.zip {α β : Type} (o : Opt α) (other : Opt β) : Opt (α × β) :=
  match o with
  | Opt.Some v => other.map (fun w => (v, w))
  | Opt.None _ => Opt.none_

/-- `Some.zipWith`: `return other.map((other) => transform(this.value, other))`;
`None.zipWith`: `return none_`. -/
def Opt.zipWith {α β γ : Type} (o : Opt α) (other : Opt β)
    (transform : α → β → γ) : Opt γ :=
  match o with
  | Opt.Some v => other.map (fun w => transform v w)
  | Opt.None _ => Opt.none_

/-- `Some.test`: `return predicate(this.value)`; `None.test`:
`return false`. -/
def Opt.test {α : Type} (o : Opt α) (predicate : α → Bool) : Bool :=
  match o with
  | Opt.Some v => predicate v
  | Opt.None _ => false

/-- `Some.unwrap`: `return this.value`; `None.unwrap`:
`throw new Error('Cannot unwrap None')`. -/
def Opt.unwrap {α : Type} (o : Opt α) : Except String α :=
  match o with
  | Opt.Some v => Except.ok v
  | Opt.None _ => Except.error "Cannot unwrap None"

/-- The outcome container `Result<T, E>` of the final iteration
(classes `Ok` / `Err`). -/
inductive Res (τ ε : Type) where
  | Ok (value : τ) : Res τ ε
  | Err (error : ε) : Res τ ε
deriving DecidableEq

/-- The factory `ok(value)` of the final result module:
`return new Ok(value)`. -/
def okFn {τ ε : Type} (value : τ) : Res τ ε := Res.Ok value

/-- The factory `err(error)` of the final result module:
`return new Err(error)`. -/
def errFn {τ ε : Type} (error : ε) : Res τ ε := Res.Err error

/-- `Some.toResult`: `return ok(this.value)` (the error thunk is not
invoked); `None.toResult`: `return err(createError())`. -/
def Opt.toResult {α ε : Type} (o : Opt α) (createError : Unit → ε) :
    Res α ε :=
  match o with
  | Opt.Some v => okFn v
  | Opt.None _ => errFn (createError ())

/-- `Ok.map`: `return new Ok(transform(this.value))`; `Err.map`:
`return this`. -/
def Res.map {τ υ ε : Type} (r : Res τ ε) (transform : τ → υ) : Res υ ε :=
  match r with
  | Res.Ok v => Res.Ok (transform v)
  | Res.Err e => Res.Err e

/-- `Ok.mapErr`: `return this`; `Err.mapErr`:
`return new Err(transform(this.error))`. -/
def Res.mapErr {τ ε φ : Type} (r : Res τ ε) (transform : ε → φ) : Res τ φ :=
  match r with
  | Res.Ok v => Res.Ok v
  | Res.Err e => Res.Err (transform e)

/-- `Ok.andThen`: `return transform(this.value)`; `Err.andThen`:
`return this`. -/
def Res.andThen {τ υ ε : Type} (r : Res τ ε) (transform : τ → Res υ ε) :
    Res υ ε :=
  match r with
  | Res.Ok v => transform v
  | Res.Err e => Res.Err e

/-- `Ok.orElse`: `return this`; `Err.orElse`: `return alter(this.error)`. -/
def Res.orElse {τ ε φ : Type} (r : Res τ ε) (alter : ε → Res τ φ) :
    Res τ φ :=
  match r with
  | Res.Ok v => Res.Ok v
  | Res.Err e => alter e

/-- `Ok.unwrap`: `return this.value`; `Err.unwrap`:
`throw new Error('Result: cannot unwrap value if err.')`. -/
def Res.unwrap {τ ε : Type} (r : Res τ ε) : Except String τ :=
  match r with
  | Res.Ok v => Except.ok v
  | Res.Err _ => Except.error "Result: cannot unwrap value if err."

/-- `Ok.unwrapErr`: `throw new Error('Result: cannot unwrap error if ok.')`;
`Err.unwrapErr`: `return this.error`. -/
def Res.unwrapErr {τ ε : Type} (r : Res τ ε) : Except String ε :=
  match r with
  | Res.Ok _ => Except.error "Result: cannot unwrap error if ok."
  | Res.Err e => Except.ok e

/-- Modelled from the spec: the instance method `toOption` of the final
outcome container is not under src (only its tests and the async caller
reference it).  Spec contract table: Success yields `present(value)`;
Failure yields Absent with the error discarded, and the test
`toOption() returns just none` pins the Absent result to the canonical
instance. -/
def Res.toOption {τ ε : Type} (r : Res τ ε) : Opt τ :=
  match r with
  | Res.Ok v => someFn v
  | Res.Err _ => Opt.none_

/-- `Result.begin`: `return new Ok(undefined)` (void modelled as `Unit`). -/
def Res.begin {ε : Type} : Res Unit ε := Res.Ok ()

/-- `Result.challenge`: `try { return new Ok(f()); } catch (e) { return new
Err(e); }`.  The callback may throw, so it has codomain `Except ε τ`. -/
def Res.challenge {τ ε : Type} (f : Unit → Except ε τ) : Res τ ε :=
  match f () with
  | Except.ok v => Res.Ok v
  | Except.error e => Res.Err e

/-- Modelled from the spec: the instance-level `attempt` (source name `try`)
of the final outcome container is not under src (only its tests and the
async caller reference it).  Spec contract table: Success yields
`f(value)`, but if `f` throws the result is `failure(thrownValue)`;
Failure is self unchanged. -/
def Res.attempt {τ υ ε : Type} (r : Res τ ε) (f : τ → Except ε (Res υ ε)) :
    Res υ ε :=
  match r with
  | Res.Ok v =>
    match f v with
    | Except.ok s => s
    | Except.error e => Res.Err e
  | Res.Err e => Res.Err e

/-- A settled JavaScript promise: `ticks` counts how many pending
user-supplied promises were awaited before settlement (0 means the async
body settled immediately without awaiting), `result` is fulfilment
(`Except.ok`) or rejection (`Except.error`). -/
structure Prom (ρ α : Type) where
  ticks : Nat
  result : Except ρ α

/-- `Promise.resolve(a)`, or an async body returning a plain value without
awaiting: settles immediately. -/
def Prom.pure {ρ α : Type} (a : α) : Prom ρ α := Prom.mk 0 (Except.ok a)

/-- Sequencing inside an async body: `await p` then continue with `f`.
A rejection of `p` rejects the whole body; ticks accumulate. -/
def Prom.bind {ρ α β : Type} (p : Prom ρ α) (f : α → Prom ρ β) :
    Prom ρ β :=
  match p.result with
  | Except.error e => Prom.mk p.ticks (Except.error e)
  | Except.ok a => Prom.mk (p.ticks + (f a).ticks) (f a).result

/-- `Some.mapAsync`: `return some(await transform(this.value))`;
`None.mapAsync`: `return none_` (no await). -/
def Opt.mapAsync {α β ρ : Type} (o : Opt α) (transform : α → Prom ρ β) :
    Prom ρ (Opt β) :=
  match o with
  | Opt.Some v => (transform v).bind (fun u => Prom.pure (someFn u))
  | Opt.None _ => Prom.pure Opt.none_

/-- `Some.andThenAsync`: `return transform(this.value)` (the returned
promise is adopted); `None.andThenAsync`: `return none_` (no await). -/
def Opt.andThenAsync {α β ρ : Type} (o : Opt α)
    (transform : α → Prom ρ (Opt β)) : Prom ρ (Opt β) :=
  match o with
  | Opt.Some v => transform v
  | Opt.None _ => Prom.pure Opt.none_

/-- `Some.filterAsync`: `return (await predicate(this.value)) ? this :
none_;` `None.filterAsync`: `return none_` (no await). -/
def Opt.filterAsync {α ρ : Type} (o : Opt α)
    (predicate : α → Prom ρ Bool) : Prom ρ (Opt α) :=
  match o with
  | Opt.Some v =>
    (predicate v).bind
      (fun b => Prom.pure (if b then Opt.Some v else Opt.none_))
  | Opt.None _ => Prom.pure Opt.none_

/-- `Some.insertWithAsync`: `return this` (no await);
`None.insertWithAsync`: `return some(await alter())` — the Absent side
awaits the callback. -/
def Opt.insertWithAsync {α ρ : Type} (o : Opt α)
    (alter : Unit → Prom ρ α) : Prom ρ (Opt α) :=
  match o with
  | Opt.Some v => Prom.pure (Opt.Some v)
  | Opt.None _ => (alter ()).bind (fun u => Prom.pure (someFn u))

/-- `Some.orElseAsync`: `return this` (no await); `None.orElseAsync`:
`return alter()` — the Absent side adopts the callback's promise. -/
def Opt.orElseAsync {α ρ : Type} (o : Opt α)
    (alter : Unit → Prom ρ (Opt α)) : Prom ρ (Opt α) :=
  match o with
  | Opt.Some v => Prom.pure (Opt.Some v)
  | Opt.None _ => alter ()

/-- `Some.zipWithAsync`: `const other_ = await other; if (other_.isNone)
{ return none_; } return some(await transform(this.value, other_.value));`
`None.zipWithAsync`: `return none_` (neither argument awaited). -/
def Opt.zipWithAsync {α β γ ρ : Type} (o : Opt α) (other : Prom ρ (Opt β))
    (transform : α → β → Prom ρ γ) : Prom ρ (Opt γ) :=
  match o with
  | Opt.Some v =>
    other.bind (fun o2 =>
      match o2 with
      | Opt.None _ => Prom.pure Opt.none_
      | Opt.Some w => (transform v w).bind (fun u => Prom.pure (someFn u)))
  | Opt.None _ => Prom.pure Opt.none_

/-- `Some.testAsync`: `return predicate(this.value)` (adopted);
`None.testAsync`: `return false` (no await). -/
def Opt.testAsync {α ρ : Type} (o : Opt α) (predicate : α → Prom ρ Bool) :
    Prom ρ Bool :=
  match o with
  | Opt.Some v => predicate v
  | Opt.None _ => Prom.pure false

/-- `Some.toResultAsync`: `return ok(this.value)` (no await, thunk not
invoked); `None.toResultAsync`: `return err(await createError())` — the
Absent side awaits the callback. -/
def Opt.toResultAsync {α ε ρ : Type} (o : Opt α)
    (createError : Unit → Prom ρ ε) : Prom ρ (Res α ε) :=
  match o with
  | Opt.Some v => Prom.pure (okFn v)
  | Opt.None _ => (createError ()).bind (fun e => Prom.pure (errFn e))

/-- `Ok.mapAsync`: `return new Ok(await transform(this.value))`;
`Err.mapAsync`: `return this` (no await). -/
def Res.mapAsync {τ υ ε ρ : Type} (r : Res τ ε) (transform : τ → Prom ρ υ) :
    Prom ρ (Res υ ε) :=
  match r with
  | Res.Ok v => (transform v).bind (fun u => Prom.pure (Res.Ok u))
  | Res.Err e => Prom.pure (Res.Err e)

/-- `AsyncResult<T, E>`: wraps one promise of a `Result`. -/
structure AsyncRes (τ ε ρ : Type) where
  promise : Prom ρ (Res τ ε)

/-- `AsyncResult.map` via the private `asyncRs` helper:
`new AsyncResult((async () => f(await this.promise))())` with
`f = (r) => r.mapAsync(transform)`; a rejection of either the wrapped
promise or the callback's promise rejects the new wrapped promise. -/
def AsyncRes.map {τ υ ε ρ : Type} (a : AsyncRes τ ε ρ)
    (transform : τ → Prom ρ υ) : AsyncRes υ ε ρ :=
  AsyncRes.mk (a.promise.bind (fun r => r.mapAsync transform))

/-- `AsyncResult.begin`: `return ok().toAsync();` — an already settled
`Ok(undefined)` (void modelled as `Unit`). -/
def AsyncRes.begin {ε ρ : Type} : AsyncRes Unit ε ρ :=
  AsyncRes.mk (Prom.pure (Res.Ok ()))

/-- `AsyncResult.try` (spec name `tryAsync`):
`try { return ok(await f()); } catch (e) { return err(e); }` wrapped in a
new `AsyncResult`.  The callback may throw synchronously (outer
`Except.error`) or return a promise that may reject; both are caught and
converted into `Err`. -/
def AsyncRes.tryS {τ ρ : Type} (f : Unit → Except ρ (Prom ρ τ)) :
    AsyncRes τ ρ ρ :=
  AsyncRes.mk
    (match f () with
     | Except.error e => Prom.mk 0 (Except.ok (Res.Err e))
     | Except.ok p =>
       Prom.mk p.ticks
         (match p.result with
          | Except.ok v => Except.ok (Res.Ok v)
          | Except.error e => Except.ok (Res.Err e)))

/-- `AsyncResult.unwrapErr`: `return (await this.promise).unwrapErr();` —
a rejection of the wrapped promise propagates (left), and `unwrapErr` on an
`Ok` throws its error message (right). -/
def AsyncRes.unwrapErr {τ ε ρ : Type} (a : AsyncRes τ ε ρ) :
    Prom (Sum ρ String) ε :=
  Prom.mk a.promise.ticks
    (match a.promise.result with
     | Except.error r => Except.error (Sum.inl r)
     | Except.ok r =>
       match r.unwrapErr with
       | Except.ok e => Except.ok e
       | Except.error msg => Except.error (Sum.inr msg))

/-- `Some.map` for a callback that may throw: `return
some(transform(this.value))` — a throw inside `transform` propagates out of
`map`; `None.map` never invokes the callback. -/
def Opt.mapT {α β ρ : Type} (o : Opt α) (transform : α → Except ρ β) :
    Except ρ (Opt β) :=
  match o with
  | Opt.Some v =>
    match transform v with
    | Except.ok u => Except.ok (someFn u)
    | Except.error e => Except.error e
  | Opt.None _ => Except.ok Opt.none_

/-- `Some.andThen` for a callback that may throw: `return
transform(this.value)` — a throw propagates; `None.andThen` never invokes
the callback. -/
def Opt.andThenT {α β ρ : Type} (o : Opt α)
    (transform : α → Except ρ (Opt β)) : Except ρ (Opt β) :=
  match o with
  | Opt.Some v => transform v
  | Opt.None _ => Except.ok Opt.none_

/-- `Some.filter` for a predicate that may throw — a throw propagates;
`None.filter` never invokes the predicate. -/
def Opt.filterT {α ρ : Type} (o : Opt α) (predicate : α → Except ρ Bool) :
    Except ρ (Opt α) :=
  match o with
  | Opt.Some v =>
    match predicate v with
    | Except.ok b => Except.ok (if b then Opt.Some v else Opt.none_)
    | Except.error e => Except.error e
  | Opt.None _ => Except.ok Opt.none_

/-- `Ok.map` for a callback that may throw — a throw propagates out of
`map`; `Err.map` never invokes the callback. -/
def Res.mapT {τ υ ε ρ : Type} (r : Res τ ε) (transform : τ → Except ρ υ) :
    Except ρ (Res υ ε) :=
  match r with
  | Res.Ok v =>
    match transform v with
    | Except.ok u => Except.ok (Res.Ok u)
    | Except.error e => Except.error e
  | Res.Err e => Except.ok (Res.Err e)

/-- `Ok.andThen` for a callback that may throw — a throw propagates;
`Err.andThen` never invokes the callback. -/
def Res.andThenT {τ υ ε ρ : Type} (r : Res τ ε)
    (transform : τ → Except ρ (Res υ ε)) : Except ρ (Res υ ε) :=
  match r with
  | Res.Ok v => transform v
  | Res.Err e => Except.ok (Res.Err e)

/-- `Err.mapErr` for a callback that may throw — a throw propagates;
`Ok.mapErr` never invokes the callback. -/
def Res.mapErrT {τ ε φ ρ : Type} (r : Res τ ε) (transform : ε → Except ρ φ) :
    Except ρ (Res τ φ) :=
  match r with
  | Res.Ok v => Except.ok (Res.Ok v)
  | Res.Err e =>
    match transform e with
    | Except.ok u => Except.ok (Res.Err u)
    | Except.error x => Except.error x

/-- `Err.orElse` for a callback that may throw — a throw propagates;
`Ok.orElse` never invokes the callback. -/
def Res.orElseT {τ ε φ ρ : Type} (r : Res τ ε)
    (alter : ε → Except ρ (Res τ φ)) : Except ρ (Res τ φ) :=
  match r with
  | Res.Ok v => Except.ok (Res.Ok v)
  | Res.Err e => alter e

/-- C1: mapping over a Present container obeys the functor identity and
composition laws, the same laws hold for Success, and map absorbs on the
empty side — `absent().map(f)` is Absent and `failure(e).map(f)` is the
same Failure, with the callback universally quantified (so it is never
consulted in the absorbing cases). -/
theorem c1_functor_laws :
    (∀ (α : Type) (x : α), (someFn x).map (fun v => v) = someFn x)
    ∧ (∀ (α β γ : Type) (x : α) (f : α → β) (g : β → γ),
        ((someFn x).map f).map g = (someFn x).map (fun v => g (f v)))
    ∧ (∀ (τ ε : Type) (x : τ), (okFn x : Res τ ε).map (fun v => v) = okFn x)
    ∧ (∀ (τ υ φ ε : Type) (x : τ) (f : τ → υ) (g : υ → φ),
        ((okFn x : Res τ ε).map f).map g
          = (okFn x : Res τ ε).map (fun v => g (f v)))
    ∧ (∀ (α β : Type) (f : α → β), (Opt.none_ : Opt α).map f = Opt.none_)
    ∧ (∀ (τ υ ε : Type) (e : ε) (f : τ → υ),
        (errFn e : Res τ ε).map f = errFn e) := by
  refine ⟨fun α x => rfl, fun α β γ x f g => rfl, fun τ ε x => rfl,
    fun τ υ φ ε x f g => rfl, fun α β f => rfl, fun τ υ ε e f => rfl⟩

/-- C2: `andThen` is associative for both container families —
`m.andThen(f).andThen(g) = m.andThen(v => f(v).andThen(g))` whatever the
variant of `m`. -/
theorem c2_monad_assoc :
    (∀ (α β γ : Type) (m : Opt α) (f : α → Opt β) (g : β → Opt γ),
        (m.andThen f).andThen g = m.andThen (fun v => (f v).andThen g))
    ∧ (∀ (τ υ φ ε : Type) (m : Res τ ε) (f : τ → Res υ ε) (g : υ → Res φ ε),
        (m.andThen f).andThen g = m.andThen (fun v => (f v).andThen g)) := by
  constructor
  · intro α β γ m f g
    cases m <;> rfl
  · intro τ υ φ ε m f g
    cases m <;> rfl

/-- C3: the short-circuit identities of `and` and `or` and the exclusivity
of `xor` on the presence container, exactly as the spec lists them. -/
theorem c3_and_or_xor :
    (∀ (α β : Type) (a : α) (other : Opt β), (someFn a).and other = other)
    ∧ (∀ (α β : Type) (other : Opt β),
        (Opt.none_ : Opt α).and other = Opt.none_)
    ∧ (∀ (α : Type) (a : α) (other : Opt α), (someFn a).or other = someFn a)
    ∧ (∀ (α : Type) (other : Opt α), (Opt.none_ : Opt α).or other = other)
    ∧ (∀ (α : Type) (a : α), (someFn a).xor Opt.none_ = someFn a)
    ∧ (∀ (α : Type) (a b : α), (someFn a).xor (someFn b) = Opt.none_)
    ∧ (∀ (α : Type), (Opt.none_ : Opt α).xor Opt.none_ = Opt.none_)
    ∧ (∀ (α : Type) (other : Opt α), (Opt.none_ : Opt α).xor other = other) := by
  refine ⟨fun α β a other => rfl, fun α β other => rfl, fun α a other => rfl,
    fun α other => rfl, fun α a => rfl, fun α a b => rfl, fun α => rfl,
    fun α other => rfl⟩

/-- C4: converting Present to the outcome container and back round-trips the
value — `present(x).toResult(thunk).toOption().unwrap()` returns `x` — and
converting Absent materialises the error from the thunk —
`absent().toResult(thunk).unwrapErr()` returns the thunk's value.  The
`toOption` step is modelled from the spec (see `Res.toOption`). -/
theorem c4_roundtrip :
    (∀ (α ε : Type) (x : α) (e : ε),
        (((someFn x).toResult (fun _ => e)).toOption).unwrap = Except.ok x)
    ∧ (∀ (α : Type),
        ((Opt.none_ : Opt α).toResult (fun _ => "E")).unwrapErr
          = Except.ok "E") := by
  exact ⟨fun α ε x e => rfl, fun α => rfl⟩

/-- C5: the value-unwrap accessors fail exactly on the empty or error
variant — `unwrap` on Absent throws the `Cannot unwrap None` error,
`unwrap` on Failure and `unwrapErr` on Success throw the corresponding
result errors (the spec names these `EmptyAccess`, `UnwrapOnFailure` and
`UnwrapErrOnSuccess`) — while on the opposite variants they return the
stored payload and never fail. -/
theorem c5_unwrap_failures :
    (∀ (α : Type) (j : Nat),
        (Opt.None j : Opt α).unwrap = Except.error "Cannot unwrap None")
    ∧ (∀ (τ ε : Type) (e : ε),
        (errFn e : Res τ ε).unwrap
          = Except.error "Result: cannot unwrap value if err.")
    ∧ (∀ (τ ε : Type) (v : τ),
        (okFn v : Res τ ε).unwrapErr
          = Except.error "Result: cannot unwrap error if ok.")
    ∧ (∀ (α : Type) (v : α), (someFn v).unwrap = Except.ok v)
    ∧ (∀ (τ ε : Type) (v : τ), (okFn v : Res τ ε).unwrap = Except.ok v)
    ∧ (∀ (τ ε : Type) (e : ε), (errFn e : Res τ ε).unwrapErr = Except.ok e) := by
  refine ⟨fun α j => rfl, fun τ ε e => rfl, fun τ ε v => rfl,
    fun α v => rfl, fun τ ε v => rfl, fun τ ε e => rfl⟩

/-- C6: `Result.challenge(f)` invokes `f` and returns Success of its value
when it returns normally, and a Failure holding exactly the thrown value
when it throws; `AsyncResult.try` (the spec's `tryAsync`) produces Success
of the callback's resolved value and converts a synchronous throw or a
rejected inner promise into a Failure holding it, so
`AsyncResult.tryAsync(() => { throw new Error('x'); }).unwrapErr()`
resolves to the thrown error (modelled by its message string). -/
theorem c6_challenge_converts (τ ε ρ : Type) (f : Unit → Except ε τ)
    (v : τ) (e : ε) (g : Unit → Except ρ (Prom ρ τ)) (p : Prom ρ τ)
    (w : τ) (r : ρ) :
    (f () = Except.ok v → Res.challenge f = okFn v)
    ∧ (f () = Except.error e → Res.challenge f = errFn e)
    ∧ (g () = Except.error r →
        (AsyncRes.tryS g).promise = Prom.mk 0 (Except.ok (errFn r)))
    ∧ (g () = Except.ok p → p.result = Except.ok w →
        (AsyncRes.tryS g).promise = Prom.mk p.ticks (Except.ok (okFn w)))
    ∧ (g () = Except.ok p → p.result = Except.error r →
        (AsyncRes.tryS g).promise = Prom.mk p.ticks (Except.ok (errFn r)))
    ∧ ((AsyncRes.tryS (fun _ : Unit =>
          (Except.error "x" : Except String (Prom String Nat)))).unwrapErr
        = Prom.mk 0 (Except.ok "x")) := by
  refine ⟨?_, ?_, ?_, ?_, ?_, rfl⟩
  · intro h
    simp [Res.challenge, h, okFn]
  · intro h
    simp [Res.challenge, h, errFn]
  · intro h
    simp [AsyncRes.tryS, h, errFn]
  · intro h1 h2
    simp [AsyncRes.tryS, h1, h2, okFn]
  · intro h1 h2
    simp [AsyncRes.tryS, h1, h2, errFn]

/-- Witness for C6 at concrete inputs: a normally-returning and a throwing
callback for `challenge`, and a fulfilled inner promise for
`AsyncResult.try`. -/
theorem c6_challenge_converts_witness :
    Res.challenge (fun _ : Unit => (Except.ok 3 : Except String Nat)) = okFn 3
    ∧ Res.challenge (fun _ : Unit =>
        (Except.error "boom" : Except String Nat)) = errFn "boom"
    ∧ (AsyncRes.tryS (fun _ : Unit =>
        Except.ok (Prom.mk 2 (Except.ok 7) : Prom String Nat))).promise
        = Prom.mk 2 (Except.ok (okFn 7)) := by
  have h1 := c6_challenge_converts Nat String String
    (fun _ => Except.ok 3) 3 "boom"
    (fun _ => Except.ok (Prom.mk 2 (Except.ok 7)))
    (Prom.mk 2 (Except.ok 7)) 7 "boom"
  have h2 := c6_challenge_converts Nat String String
    (fun _ => Except.error "boom") 3 "boom"
    (fun _ => Except.ok (Prom.mk 2 (Except.ok 7)))
    (Prom.mk 2 (Except.ok 7)) 7 "boom"
  exact ⟨h1.1 rfl, h2.2.1 rfl, h1.2.2.2.1 rfl rfl⟩

/-- C7: every combinator outside the attempt/tryAsync/challenge family
never catches a throwing user callback — the exception propagates out of
the synchronous combinators (`map`, `andThen`, `filter`, `mapErr`,
`orElse`) and rejects the outer promise of the asynchronous forms — while
`challenge`, the instance-level `attempt` (modelled from the spec) and
`AsyncResult.try` convert the thrown or rejected value into a Failure
payload, so `AsyncResult.try` never rejects. -/
theorem c7_propagation (α β τ υ ε φ ρ : Type) (v : α) (e : ρ) (d : ε)
    (t : τ)
    (f : α → Except ρ β) (fo : α → Except ρ (Opt β))
    (fp : α → Except ρ Bool)
    (fm : τ → Except ρ υ) (fa2 : τ → Except ρ (Res υ ε))
    (fe : ε → Except ρ φ) (fg : ε → Except ρ (Res τ φ))
    (pm : τ → Prom ρ υ)
    (fc : Unit → Except ε τ) (fat : τ → Except ε (Res υ ε)) :
    (f v = Except.error e → (someFn v).mapT f = Except.error e)
    ∧ (fo v = Except.error e → (someFn v).andThenT fo = Except.error e)
    ∧ (fp v = Except.error e → (someFn v).filterT fp = Except.error e)
    ∧ (fm t = Except.error e →
        (okFn t : Res τ ε).mapT fm = Except.error e)
    ∧ (fa2 t = Except.error e →
        (okFn t : Res τ ε).andThenT fa2 = Except.error e)
    ∧ (fe d = Except.error e →
        (errFn d : Res τ ε).mapErrT fe = Except.error e)
    ∧ (fg d = Except.error e →
        (errFn d : Res τ ε).orElseT fg = Except.error e)
    ∧ ((pm t).result = Except.error e →
        ((okFn t : Res τ ε).mapAsync pm).result = Except.error e)
    ∧ ((pm t).result = Except.error e →
        (((AsyncRes.mk (Prom.pure (okFn t)) : AsyncRes τ ε ρ).map
            pm).promise).result = Except.error e)
    ∧ (fc () = Except.error d → Res.challenge fc = errFn d)
    ∧ (fat t = Except.error d → (okFn t : Res τ ε).attempt fat = errFn d)
    ∧ (∀ (gy : Unit → Except ρ (Prom ρ τ)), ∃ rr,
        (AsyncRes.tryS gy).promise.result = Except.ok rr) := by
  refine ⟨?_, ?_, ?_, ?_, ?_, ?_, ?_, ?_, ?_, ?_, ?_, ?_⟩
  · intro h
    simp [Opt.mapT, someFn, h]
  · intro h
    simp [Opt.andThenT, someFn, h]
  · intro h
    simp [Opt.filterT, someFn, h]
  · intro h
    simp [Res.mapT, okFn, h]
  · intro h
    simp [Res.andThenT, okFn, h]
  · intro h
    simp [Res.mapErrT, errFn, h]
  · intro h
    simp [Res.orElseT, errFn, h]
  · intro h
    simp [Res.mapAsync, okFn, Prom.bind, h]
  · intro h
    simp [AsyncRes.map, Res.mapAsync, okFn, Prom.bind, Prom.pure, h]
  · intro h
    simp [Res.challenge, h, errFn]
  · intro h
    simp [Res.attempt, okFn, errFn, h]
  · intro gy
    cases hg : gy () with
    | error e2 => exact ⟨errFn e2, by simp [AsyncRes.tryS, hg, errFn]⟩
    | ok p =>
      cases hp : p.result with
      | ok w => exact ⟨okFn w, by simp [AsyncRes.tryS, hg, hp, okFn]⟩
      | error e2 => exact ⟨errFn e2, by simp [AsyncRes.tryS, hg, hp, errFn]⟩

/-- Witness for C7 at concrete inputs: constantly-throwing callbacks for
every non-catching combinator, a rejected callback promise for the async
forms, and throwing callbacks for the catching family. -/
theorem c7_propagation_witness :
    ((someFn 4).mapT (fun _ : Nat => (Except.error "boom" : Except String Nat))
        = Except.error "boom")
    ∧ ((someFn 4).andThenT
        (fun _ : Nat => (Except.error "boom" : Except String (Opt Nat)))
        = Except.error "boom")
    ∧ ((someFn 4).filterT
        (fun _ : Nat => (Except.error "boom" : Except String Bool))
        = Except.error "boom")
    ∧ ((okFn 5 : Res Nat String).mapT
        (fun _ : Nat => (Except.error "boom" : Except String Nat))
        = Except.error "boom")
    ∧ ((okFn 5 : Res Nat String).andThenT
        (fun _ : Nat =>
          (Except.error "boom" : Except String (Res Nat String)))
        = Except.error "boom")
    ∧ ((errFn "d" : Res Nat String).mapErrT
        (fun _ : String => (Except.error "boom" : Except String Nat))
        = Except.error "boom")
    ∧ ((errFn "d" : Res Nat String).orElseT
        (fun _ : String =>
          (Except.error "boom" : Except String (Res Nat Nat)))
        = Except.error "boom")
    ∧ (((okFn 5 : Res Nat String).mapAsync
        (fun _ : Nat =>
          (Prom.mk 1 (Except.error "boom") : Prom String Nat))).result
        = Except.error "boom")
    ∧ ((((AsyncRes.mk (Prom.pure (okFn 5)) : AsyncRes Nat String String).map
        (fun _ : Nat =>
          (Prom.mk 1 (Except.error "boom") : Prom String Nat))).promise).result
        = Except.error "boom")
    ∧ (Res.challenge (fun _ : Unit => (Except.error "d" : Except String Nat))
        = errFn "d")
    ∧ ((okFn 5 : Res Nat String).attempt
        (fun _ : Nat =>
          (Except.error "d" : Except String (Res Nat String)))
        = errFn "d")
    ∧ (∃ rr, (AsyncRes.tryS (fun _ : Unit =>
        (Except.error "x" : Except String (Prom String Nat)))).promise.result
        = Except.ok rr) := by
  obtain ⟨h1, h2, h3, h4, h5, h6, h7, h8, h9, h10, h11, h12⟩ :=
    c7_propagation Nat Nat Nat Nat String Nat String 4 "boom" "d" 5
      (fun _ => Except.error "boom") (fun _ => Except.error "boom")
      (fun _ => Except.error "boom") (fun _ => Except.error "boom")
      (fun _ => Except.error "boom") (fun _ => Except.error "boom")
      (fun _ => Except.error "boom")
      (fun _ => Prom.mk 1 (Except.error "boom"))
      (fun _ => Except.error "d") (fun _ => Except.error "d")
  exact ⟨h1 rfl, h2 rfl, h3 rfl, h4 rfl, h5 rfl, h6 rfl, h7 rfl, h8 rfl,
    h9 rfl, h10 rfl, h11 rfl,
    h12 (fun _ => Except.error "x")⟩

/-- C8 counterexample: `insertWithAsync` on the Absent receiver does NOT
settle immediately — it awaits the user-supplied callback's promise
(`None.insertWithAsync`: `return some(await alter())`), so with a
callback whose promise takes one tick the overall promise takes one tick,
refuting "whenever the receiver is Absent, the async variant settles
immediately without awaiting anything". -/
theorem c8_absent_awaits_counterexample :
    ((Opt.none_ : Opt Nat).insertWithAsync
        (fun _ => (Prom.mk 1 (Except.ok 5) : Prom Unit Nat))).ticks ≠ 0 := by
  decide

/-- C8 (amended): every async-suffixed presence-container operation applies
the same branch logic as its synchronous counterpart, awaiting the
user-supplied function's result before constructing the returned container
(the resolved value equals the synchronous result on the callback's
resolved values); the Absent-side variants of the operations that
short-circuit on Absent (`mapAsync`, `andThenAsync`, `filterAsync`,
`zipWithAsync`, `testAsync`) settle immediately without awaiting, while
`insertWithAsync`, `orElseAsync` and `toResultAsync` — whose active side is
Absent — await the user-supplied function's promise there. -/
theorem c8_async_variants (α β γ ε ρ : Type) (o : Opt α) (j : Nat)
    (f : α → Prom ρ β) (g : α → β)
    (fo : α → Prom ρ (Opt β)) (go : α → Opt β)
    (fp : α → Prom ρ Bool) (q : α → Bool)
    (al : Unit → Prom ρ α) (ga : Unit → α)
    (ao : Unit → Prom ρ (Opt α)) (go2 : Unit → Opt α)
    (other : Prom ρ (Opt β)) (o2 : Opt β)
    (fz : α → β → Prom ρ γ) (gz : α → β → γ)
    (ce : Unit → Prom ρ ε) (ge : Unit → ε) :
    ((∀ v, (f v).result = Except.ok (g v)) →
        (o.mapAsync f).result = Except.ok (o.map g))
    ∧ ((∀ v, (fo v).result = Except.ok (go v)) →
        (o.andThenAsync fo).result = Except.ok (o.andThen go))
    ∧ ((∀ v, (fp v).result = Except.ok (q v)) →
        (o.filterAsync fp).result = Except.ok (o.filter q))
    ∧ ((al ()).result = Except.ok (ga ()) →
        (o.insertWithAsync al).result = Except.ok (o.insertWith ga))
    ∧ ((ao ()).result = Except.ok (go2 ()) →
        (o.orElseAsync ao).result = Except.ok (o.orElse go2))
    ∧ (other.result = Except.ok o2 →
        (∀ v w, (fz v w).result = Except.ok (gz v w)) →
        (o.zipWithAsync other fz).result = Except.ok (o.zipWith o2 gz))
    ∧ ((∀ v, (fp v).result = Except.ok (q v)) →
        (o.testAsync fp).result = Except.ok (o.test q))
    ∧ ((ce ()).result = Except.ok (ge ()) →
        (o.toResultAsync ce).result = Except.ok (o.toResult ge))
    ∧ (((Opt.None j : Opt α).mapAsync f).ticks = 0)
    ∧ (((Opt.None j : Opt α).andThenAsync fo).ticks = 0)
    ∧ (((Opt.None j : Opt α).filterAsync fp).ticks = 0)
    ∧ (((Opt.None j : Opt α).zipWithAsync other fz).ticks = 0)
    ∧ (((Opt.None j : Opt α).testAsync fp).ticks = 0)
    ∧ (((Opt.None j : Opt α).insertWithAsync al).ticks = (al ()).ticks)
    ∧ (((Opt.None j : Opt α).orElseAsync ao).ticks = (ao ()).ticks)
    ∧ (((Opt.None j : Opt α).toResultAsync ce).ticks = (ce ()).ticks) := by
  refine ⟨?_, ?_, ?_, ?_, ?_, ?_, ?_, ?_, rfl, rfl, rfl, rfl, rfl,
    ?_, rfl, ?_⟩
  · intro hf
    cases o with
    | Some v => simp [Opt.mapAsync, Opt.map, Prom.bind, Prom.pure, hf]
    | None k => rfl
  · intro hf
    cases o with
    | Some v => simp [Opt.andThenAsync, Opt.andThen, hf]
    | None k => rfl
  · intro hf
    cases o with
    | Some v => simp [Opt.filterAsync, Opt.filter, Prom.bind, Prom.pure, hf]
    | None k => rfl
  · intro hf
    cases o with
    | Some v => rfl
    | None k =>
      simp [Opt.insertWithAsync, Opt.insertWith, Prom.bind, Prom.pure, hf]
  · intro hf
    cases o with
    | Some v => rfl
    | None k => simp [Opt.orElseAsync, Opt.orElse, hf]
  · intro ho hf
    cases o with
    | Some v =>
      cases o2 with
      | Some w =>
        simp [Opt.zipWithAsync, Opt.zipWith, Opt.map, Prom.bind, Prom.pure,
          ho, hf]
      | None k =>
        simp [Opt.zipWithAsync, Opt.zipWith, Opt.map, Prom.bind, Prom.pure,
          ho]
    | None k => rfl
  · intro hf
    cases o with
    | Some v => simp [Opt.testAsync, Opt.test, hf]
    | None k => rfl
  · intro hf
    cases o with
    | Some v => rfl
    | None k =>
      simp [Opt.toResultAsync, Opt.toResult, Prom.bind, Prom.pure, hf]
  · cases hal : (al ()).result <;>
      simp [Opt.insertWithAsync, Prom.bind, Prom.pure, hal]
  · cases hce : (ce ()).result <;>
      simp [Opt.toResultAsync, Prom.bind, Prom.pure, hce]

/-- Witness for C8 (amended) at concrete inputs: fulfilled callbacks whose
resolved values match concrete pure counterparts, on a Present receiver. -/
theorem c8_async_variants_witness :
    ((someFn 4).mapAsync
        (fun v : Nat => (Prom.mk 1 (Except.ok (v + 1)) : Prom String Nat))).result
      = Except.ok ((someFn 4).map (fun v => v + 1))
    ∧ ((someFn 4).insertWithAsync
        (fun _ => (Prom.mk 1 (Except.ok 9) : Prom String Nat))).result
      = Except.ok ((someFn 4).insertWith (fun _ => 9))
    ∧ ((someFn 4).zipWithAsync
        (Prom.mk 0 (Except.ok (someFn 6)) : Prom String (Opt Nat))
        (fun v w => (Prom.mk 1 (Except.ok (v + w)) : Prom String Nat))).result
      = Except.ok ((someFn 4).zipWith (someFn 6) (fun v w => v + w)) := by
  have h := c8_async_variants Nat Nat Nat String String (someFn 4) 0
    (fun v => Prom.mk 1 (Except.ok (v + 1))) (fun v => v + 1)
    (fun v => Prom.mk 0 (Except.ok (someFn v))) (fun v => someFn v)
    (fun _ => Prom.mk 0 (Except.ok true)) (fun _ => true)
    (fun _ => Prom.mk 1 (Except.ok 9)) (fun _ => 9)
    (fun _ => Prom.mk 0 (Except.ok Opt.none_)) (fun _ => Opt.none_)
    (Prom.mk 0 (Except.ok (someFn 6))) (someFn 6)
    (fun v w => Prom.mk 1 (Except.ok (v + w))) (fun v w => v + w)
    (fun _ => Prom.mk 0 (Except.ok "E")) (fun _ => "E")
  exact ⟨h.1 (fun v => rfl), h.2.2.2.1 rfl,
    h.2.2.2.2.2.1 rfl (fun v w => rfl)⟩

/-- C9: `Result.begin` (the spec's `beginChain`) returns Success of the
void value, so starting a chain and applying `andThen(f)` hands `f` that
void value; the asynchronous counterpart `AsyncResult.begin` wraps an
already-settled (zero ticks, fulfilled) Success of void. -/
theorem c9_begin_chain :
    (∀ (ε : Type), (Res.begin : Res Unit ε) = okFn ())
    ∧ (∀ (ε υ : Type) (f : Unit → Res υ ε),
        (Res.begin : Res Unit ε).andThen f = f ())
    ∧ (∀ (ε ρ : Type),
        (AsyncRes.begin : AsyncRes Unit ε ρ).promise
          = Prom.mk 0 (Except.ok (okFn ()))) := by
  exact ⟨fun ε => rfl, fun ε υ f => rfl, fun ε ρ => rfl⟩

/-- C10: `none()` returns the module-load canonical Absent instance
(allocation identifier 0), and every presence-container operation whose
result is Absent — `map`/`andThen`/`filter`/`and`/`zip`/`zipWith` on any
Absent receiver, `filter` with a false predicate, `zip` against Absent,
`xor` of two Present containers, and the async variants — yields that
identical canonical instance rather than a fresh allocation, so any two
Absent results are interchangeable. -/
theorem c10_canonical_none :
    (∀ (α : Type), (noneFn : Opt α) = Opt.None 0)
    ∧ (∀ (α β : Type) (j : Nat) (f : α → β),
        (Opt.None j : Opt α).map f = Opt.None 0)
    ∧ (∀ (α β : Type) (j : Nat) (f : α → Opt β),
        (Opt.None j : Opt α).andThen f = Opt.None 0)
    ∧ (∀ (α : Type) (j : Nat) (p : α → Bool),
        (Opt.None j : Opt α).filter p = Opt.None 0)
    ∧ (∀ (α β : Type) (j : Nat) (other : Opt β),
        (Opt.None j : Opt α).and other = Opt.None 0)
    ∧ (∀ (α β : Type) (j : Nat) (other : Opt β),
        (Opt.None j : Opt α).zip other = Opt.None 0)
    ∧ (∀ (α β γ : Type) (j : Nat) (other : Opt β) (f : α → β → γ),
        (Opt.None j : Opt α).zipWith other f = Opt.None 0)
    ∧ (∀ (α : Type) (v : α), (someFn v).filter (fun _ => false) = Opt.None 0)
    ∧ (∀ (α : Type) (a b : α), (someFn a).xor (someFn b) = Opt.None 0)
    ∧ (∀ (α β : Type) (j : Nat) (v : α),
        (someFn v).zip (Opt.None j : Opt β) = Opt.None 0)
    ∧ (∀ (α β ρ : Type) (j : Nat) (f : α → Prom ρ β),
        (Opt.None j : Opt α).mapAsync f
          = Prom.mk 0 (Except.ok (Opt.None 0)))
    ∧ (∀ (α β ρ : Type) (j : Nat) (f : α → Prom ρ (Opt β)),
        (Opt.None j : Opt α).andThenAsync f
          = Prom.mk 0 (Except.ok (Opt.None 0)))
    ∧ (∀ (α ρ : Type) (j : Nat) (p : α → Prom ρ Bool),
        (Opt.None j : Opt α).filterAsync p
          = Prom.mk 0 (Except.ok (Opt.None 0)))
    ∧ (∀ (α β γ ρ : Type) (j : Nat) (other : Prom ρ (Opt β))
          (f : α → β → Prom ρ γ),
        (Opt.None j : Opt α).zipWithAsync other f
          = Prom.mk 0 (Except.ok (Opt.None 0)))
    ∧ (∀ (α ρ : Type) (v : α),
        ((someFn v).filterAsync
            (fun _ => (Prom.pure false : Prom ρ Bool)))
          = Prom.mk 0 (Except.ok (Opt.None 0))) := by
  refine ⟨fun α => rfl, fun α β j f => rfl, fun α β j f => rfl,
    fun α j p => rfl, fun α β j other => rfl, fun α β j other => rfl,
    fun α β γ j other f => rfl, fun α v => rfl, fun α a b => rfl,
    fun α β j v => rfl, fun α β ρ j f => rfl, fun α β ρ j f => rfl,
    fun α ρ j p => rfl, fun α β γ ρ j other f => rfl, fun α ρ v => rfl⟩
